import Mathlib

/-!
Verification development for the coordination plane of the Flower federated
server: the authenticating gRPC server interceptor
(`src/py/flwr/server/server_interceptor.py`) and the node reconciliation loop
of the driver app (`src/py/flwr/driver/app.py`).

Bytes, public keys and serialized messages are modelled as `List Nat`
(opaque byte strings compared only for equality).  External collaborators
(base64 codec, elliptic-curve crypto, protobuf serialization) are supplied
as an environment of abstract functions, mirroring the calls the source
makes into them.
-/

namespace Flwr

abbrev Bytes := List Nat

/-- A public key handle (`ec.EllipticCurvePublicKey`), opaque. -/
abbrev PublicKey := Nat

/-- A private key handle (`ec.EllipticCurvePrivateKey`), opaque. -/
abbrev PrivateKey := Nat

/-- `flwr.proto.node_pb2.Node`: the node message with its id and anonymous flag. -/
structure Node where
  node_id : Nat
  anonymous : Bool
deriving DecidableEq, Repr

/-- The `task.consumer` part of a `TaskRes` message: only the consumer node
reference is inspected by the interceptor (`task_res_list[0].task.consumer.node_id`). -/
structure Task where
  consumer : Node
deriving DecidableEq, Repr

/-- One element of `PushTaskResRequest.task_res_list`. -/
structure TaskRes where
  task : Task
deriving DecidableEq, Repr

/-- The `Request` union of the interceptor:
`CreateNodeRequest | DeleteNodeRequest | PullTaskInsRequest | PushTaskResRequest`,
plus `other` for a request value of any other kind (the interceptor's final
`else` branch handles those). -/
inductive Request where
  | createNode (ping_interval : Nat)
  | deleteNode (node : Node)
  | pullTaskIns (node : Node)
  | pushTaskRes (task_res_list : List TaskRes)
  | other
deriving DecidableEq, Repr

/-- The `Response` union of the interceptor. Only the `CreateNodeResponse`
payload (its `node` field) is ever inspected by the gate. -/
inductive Response where
  | createNodeResponse (node : Node)
  | deleteNodeResponse
  | pullTaskInsResponse
  | pushTaskResResponse
deriving DecidableEq, Repr

/-- Protobuf field access `response.node`: on a `CreateNodeResponse` it yields
the `node` submessage; protobuf returns the default submessage
(`node_id = 0`, `anonymous = false`) when unset, which we extend to the other
constructors (gRPC typing guarantees the CreateNode handler returns a
`CreateNodeResponse`, so theorems constrain the handler accordingly). -/
def Response.node : Response → Node
  | .createNodeResponse n => n
  | _ => { node_id := 0, anonymous := false }

/-- `grpc.StatusCode` values used by the interceptor. -/
inductive StatusCode where
  | UNAUTHENTICATED
deriving DecidableEq, Repr

/-- How a call through `_generic_method_handler` can fail:
`abort` models `context.abort(code, message)` (which raises, terminating the
call), and `indexError` models the uncaught Python `IndexError` raised by
`request.task_res_list[0]` on an empty list. -/
inductive GateError where
  | abort (code : StatusCode) (message : String)
  | indexError
deriving DecidableEq, Repr

/-- `State` of the superlink as used by the interceptor.
`client_public_keys` is the trusted key set; `node_id_map` the public-key to
node-id bindings; `restore_calls` records each `restore_node(node_id,
ping_interval)` invocation (the liveness metadata it refreshes is not
otherwise observable here). -/
structure StoreState where
  client_public_keys : List Bytes
  node_id_map : List (Bytes × Nat)
  restore_calls : List (Nat × Nat)
deriving DecidableEq, Repr

/-- Modelled from the spec: `get_client_public_keys() -> set of keys`,
a read-only snapshot of the trusted set (the Key/State Store implementation
is outside the provided sources; only its contract is given). -/
def get_client_public_keys (s : StoreState) : List Bytes :=
  s.client_public_keys

/-- Modelled from the spec: `get_node_id(public_key) -> node_id` fails with a
not-found error (`KeyError`, caught by the interceptor) if the key has no
current node-id binding; modelled as an `Option`. -/
def get_node_id (s : StoreState) (public_key : Bytes) : Option Nat :=
  (s.node_id_map.find? (fun p => p.1 == public_key)).map (fun p => p.2)

/-- Modelled from the spec:
`store_node_id_client_public_key_pair(public_key, node_id)`
establishes/overwrites the binding, keeping the map bidirectional (at most one
node id per public key and vice versa). -/
def store_node_id_client_public_key_pair
    (s : StoreState) (public_key : Bytes) (node_id : Nat) : StoreState :=
  { s with node_id_map :=
      (public_key, node_id) ::
        s.node_id_map.filter (fun p => p.1 ≠ public_key ∧ p.2 ≠ node_id) }

/-- Modelled from the spec: `restore_node(node_id, ping_interval)` marks a
previously known node id live again with a refreshed lease; we record the
call. -/
def restore_node (s : StoreState) (node_id : Nat) (ping_interval : Nat) : StoreState :=
  { s with restore_calls := s.restore_calls ++ [(node_id, ping_interval)] }

/-- The external collaborators the interceptor calls into: base64 codec,
public-key (de)serialization, ECDH shared-secret derivation, HMAC
verification, and protobuf serialization (`request.SerializeToString(True)`). -/
structure Env where
  b64decode : Bytes → Bytes
  b64encode : Bytes → Bytes
  public_key_to_bytes : PublicKey → Bytes
  bytes_to_public_key : Bytes → PublicKey
  generate_shared_key : PrivateKey → PublicKey → Bytes
  verify_hmac : Bytes → Bytes → Bytes → Bool
  serialize : Request → Bytes

/-- The interceptor's own key material (`server_private_key`, `server_public_key`). -/
structure ServerCtx where
  server_private_key : PrivateKey
  server_public_key : PublicKey

def PUBLIC_KEY_HEADER : String := "public-key"

def AUTH_TOKEN_HEADER : String := "auth-token"

/-- `_get_value_from_tuples`: first value whose key matches, defaulting to the
empty byte string (Python `""`/`b""`). -/
def get_value_from_tuples
    (key_string : String) (tuples : List (String × Bytes)) : Bytes :=
  match tuples.find? (fun kv => kv.1 == key_string) with
  | some kv => kv.2
  | none => []

instance {ε α : Type} [DecidableEq ε] [DecidableEq α] : DecidableEq (Except ε α)
  | .error e, .error e' =>
      if h : e = e' then .isTrue (by rw [h])
      else .isFalse (fun hh => h (by cases hh; rfl))
  | .error _, .ok _ => .isFalse (fun hh => by cases hh)
  | .ok _, .error _ => .isFalse (fun hh => by cases hh)
  | .ok a, .ok a' =>
      if h : a = a' then .isTrue (by rw [h])
      else .isFalse (fun hh => h (by cases hh; rfl))

/-- The observable outcome of one call through `_generic_method_handler`:
the call's result (a response, or the raised abort/IndexError), the Key/State
Store afterwards (it persists across an abort), the initial metadata sent via
`context.send_initial_metadata`, and whether the underlying handler
(`message_handler.unary_unary`) was invoked. -/
structure GateOutcome where
  result : Except GateError Response
  state : StoreState
  sent_metadata : List (String × Bytes)
  handler_called : Bool
deriving DecidableEq, Repr

/-- The resolution of the expected node id in the session-authenticated
branch: for `PushTaskResRequest` it is `task_res_list[0].task.consumer.node_id`
(`none` when the list is empty, where Python raises `IndexError`); for the
other two kinds it is `request.node.node_id`. -/
def resolve_request_node_id : Request → Option Nat
  | .deleteNode node => some node.node_id
  | .pullTaskIns node => some node.node_id
  | .pushTaskRes task_res_list =>
      (task_res_list.head?).map (fun t => t.task.consumer.node_id)
  | _ => none

/-- The session-authenticated branch of `_generic_method_handler` (lines
163–196 plus the final forward), shared by `DeleteNodeRequest`,
`PullTaskInsRequest` and `PushTaskResRequest`. -/
def session_branch (env : Env) (server : ServerCtx)
    (handler : Request → Response) (metadata : List (String × Bytes))
    (request : Request) (client_public_key_bytes : Bytes) (s : StoreState) :
    GateOutcome :=
  let hmac_value :=
    env.b64decode (get_value_from_tuples AUTH_TOKEN_HEADER metadata)
  let client_public_key := env.bytes_to_public_key client_public_key_bytes
  let shared_secret :=
    env.generate_shared_key server.server_private_key client_public_key
  let verify := env.verify_hmac shared_secret (env.serialize request) hmac_value
  let node_id_from_client_public_key := get_node_id s client_public_key_bytes
  match resolve_request_node_id request with
  | none =>
      { result := .error .indexError, state := s,
        sent_metadata := [], handler_called := false }
  | some request_node_id =>
      if ¬verify ∧ ¬(node_id_from_client_public_key = some request_node_id) then
        { result := .error (.abort .UNAUTHENTICATED "Access denied!"), state := s,
          sent_metadata := [], handler_called := false }
      else
        { result := .ok (handler request), state := s,
          sent_metadata := [], handler_called := true }

/-- `_generic_method_handler`: the body of the authenticating interceptor,
executed under the interceptor's lock.  `handler` is the underlying
`message_handler.unary_unary`. -/
def generic_method_handler (env : Env) (server : ServerCtx)
    (handler : Request → Response) (metadata : List (String × Bytes))
    (request : Request) (s : StoreState) : GateOutcome :=
  let client_public_key_bytes :=
    env.b64decode (get_value_from_tuples PUBLIC_KEY_HEADER metadata)
  let is_public_key_known :=
    client_public_key_bytes ∈ get_client_public_keys s
  if ¬is_public_key_known then
    { result := .error (.abort .UNAUTHENTICATED "Access denied!"), state := s,
      sent_metadata := [], handler_called := false }
  else
    match request with
    | .createNode ping_interval =>
        let sent :=
          [(PUBLIC_KEY_HEADER,
            env.b64encode (env.public_key_to_bytes server.server_public_key))]
        match get_node_id s client_public_key_bytes with
        | some node_id_from_client_public_key =>
            let s1 := restore_node s node_id_from_client_public_key ping_interval
            let s2 := store_node_id_client_public_key_pair s1
              client_public_key_bytes node_id_from_client_public_key
            { result := .ok (.createNodeResponse
                { node_id := node_id_from_client_public_key, anonymous := false }),
              state := s2, sent_metadata := sent, handler_called := false }
        | none =>
            let response := handler (.createNode ping_interval)
            let s1 := store_node_id_client_public_key_pair s
              client_public_key_bytes response.node.node_id
            { result := .ok response, state := s1,
              sent_metadata := sent, handler_called := true }
    | .deleteNode node =>
        session_branch env server handler metadata (.deleteNode node)
          client_public_key_bytes s
    | .pullTaskIns node =>
        session_branch env server handler metadata (.pullTaskIns node)
          client_public_key_bytes s
    | .pushTaskRes task_res_list =>
        session_branch env server handler metadata (.pushTaskRes task_res_list)
          client_public_key_bytes s
    | .other =>
        { result := .error (.abort .UNAUTHENTICATED "Access denied!"), state := s,
          sent_metadata := [], handler_called := false }

/-- The Client Manager's registered-proxy set, modelled by the node ids of
the registered proxies (a `DriverClientProxy` is determined here by its node
id; its other fields — driver handle, anonymous flag, workload id — are not
inspected by the loop's control flow). -/
structure CMState where
  registered : List Nat
deriving DecidableEq, Repr

/-- Modelled from the spec: `register(proxy) -> bool` returns false if the
node id is already present, otherwise adds the proxy (the ClientManager
implementation is outside the provided sources; only its contract is given). -/
def ClientManager.register (cm : CMState) (node_id : Nat) : Bool × CMState :=
  if node_id ∈ cm.registered then (false, cm)
  else (true, { registered := node_id :: cm.registered })

/-- Modelled from the spec: `unregister(proxy)` removes the proxy; tolerant
when it is absent. -/
def ClientManager.unregister (cm : CMState) (node_id : Nat) : CMState :=
  { registered := cm.registered.erase node_id }

/-- `RuntimeError("Could not register node.")` raised by the loop, carrying
the shared ClientManager state and the loop's local `registered_nodes` cache
as they stand when the exception is raised. -/
inductive LoopError where
  | couldNotRegister (cm : CMState) (registered_nodes : List Nat)
deriving DecidableEq, Repr

/-- `dead_nodes = set(registered_nodes).difference(all_node_ids)`. -/
def dead_nodes_of (registered_nodes all_node_ids : List Nat) : List Nat :=
  registered_nodes.dedup.filter (fun i => decide (i ∉ all_node_ids))

/-- `new_nodes = all_node_ids.difference(registered_nodes)`
(`all_node_ids` is already a set, built by comprehension over
`driver.get_nodes()`). -/
def new_nodes_of (registered_nodes all_node_ids : List Nat) : List Nat :=
  all_node_ids.dedup.filter (fun i => decide (i ∉ registered_nodes))

/-- The "Unregister dead nodes" loop: for each dead id, unregister its proxy
from the Client Manager and delete it from the local cache. -/
def run_dead (cm : CMState) (registered_nodes : List Nat) :
    List Nat → CMState × List Nat
  | [] => (cm, registered_nodes)
  | node_id :: rest =>
      run_dead (ClientManager.unregister cm node_id)
        (registered_nodes.erase node_id) rest

/-- The "Register new nodes" loop: construct a proxy for each new id and
register it; a `false` from `register` raises
`RuntimeError("Could not register node.")`, which propagates. -/
def run_new (cm : CMState) (registered_nodes : List Nat) :
    List Nat → Except LoopError (CMState × List Nat)
  | [] => .ok (cm, registered_nodes)
  | node_id :: rest =>
      match ClientManager.register cm node_id with
      | (true, cm2) => run_new cm2 (registered_nodes ++ [node_id]) rest
      | (false, _) => .error (.couldNotRegister cm registered_nodes)

/-- One cycle of `update_client_manager`'s while-loop body, given the node-id
set `all_node_ids` polled from the driver on that cycle. -/
def update_cycle (cm : CMState) (registered_nodes : List Nat)
    (all_node_ids : List Nat) : Except LoopError (CMState × List Nat) :=
  let dead_nodes := dead_nodes_of registered_nodes all_node_ids
  let new_nodes := new_nodes_of registered_nodes all_node_ids
  let p := run_dead cm registered_nodes dead_nodes
  run_new p.1 p.2 new_nodes

/-- `update_client_manager`'s while-loop.  Each list element is one
top-of-cycle observation of the shared `ref_exit_flag[0]` together with the
node ids `driver.get_nodes()` reports on that cycle; a `true` flag
observation exits the loop before running the body, and an exhausted
schedule likewise stands for the flag having been observed set. -/
def update_client_manager (cm : CMState) (registered_nodes : List Nat) :
    List (Bool × List Nat) → Except LoopError (CMState × List Nat)
  | [] => .ok (cm, registered_nodes)
  | (exit_flag, live) :: rest =>
      if exit_flag then .ok (cm, registered_nodes)
      else
        match update_cycle cm registered_nodes live with
        | .ok p => update_client_manager p.1 p.2 rest
        | .error e => .error e

/-- Whether a request takes the session-authenticated branch
(`isinstance(request, (DeleteNodeRequest, PullTaskInsRequest, PushTaskResRequest))`). -/
def is_session_request : Request → Bool
  | .deleteNode _ => true
  | .pullTaskIns _ => true
  | .pushTaskRes _ => true
  | _ => false

/-- A concrete environment for exercising the gate on closed inputs: base64
is the identity codec, keys serialize to singleton byte strings, the shared
secret is the pair of key handles, and an HMAC token is valid when it equals
the shared secret followed by the serialized message. -/
def testEnv : Env where
  b64decode := id
  b64encode := id
  public_key_to_bytes := fun k => [k]
  bytes_to_public_key := fun b => b.headD 0
  generate_shared_key := fun sk pk => [sk, pk]
  verify_hmac := fun secret msg token => token == secret ++ msg
  serialize := fun _ => [9]

def testServer : ServerCtx := { server_private_key := 10, server_public_key := 11 }

def testHandler : Request → Response
  | .createNode _ => .createNodeResponse { node_id := 42, anonymous := false }
  | .deleteNode _ => .deleteNodeResponse
  | .pullTaskIns _ => .pullTaskInsResponse
  | .pushTaskRes _ => .pushTaskResResponse
  | .other => .pushTaskResResponse

inductive StopEvent where
  | set_exit_flag
  | join_thread
deriving DecidableEq, Repr

/-- The shutdown sequence `start_driver` performs once `run_fl` returns:
`ref_exit_flag[0] = True` followed by `thread.join()`. -/
def start_driver_stop_sequence : List StopEvent :=
  [.set_exit_flag, .join_thread]

/-- Claim C3: for every protected call kind, if the base64-decoded public-key
header value is not a member of the trusted key set, the call is rejected
with an unauthenticated failure before any mutation of the Key/State Store
occurs (the outcome's state is the unchanged input state, no metadata is
sent and the underlying handler is not invoked). -/
theorem unknown_public_key_rejected_before_mutation
    (env : Env) (server : ServerCtx) (handler : Request → Response)
    (metadata : List (String × Bytes)) (request : Request) (s : StoreState)
    (h : env.b64decode (get_value_from_tuples PUBLIC_KEY_HEADER metadata) ∉
      get_client_public_keys s) :
    generic_method_handler env server handler metadata request s =
      { result := .error (.abort .UNAUTHENTICATED "Access denied!"),
        state := s, sent_metadata := [], handler_called := false } := by
  unfold generic_method_handler
  simp [h]

theorem unknown_public_key_rejected_before_mutation_witness :
    generic_method_handler testEnv testServer testHandler
        [(PUBLIC_KEY_HEADER, [2])] (.createNode 30)
        { client_public_keys := [[1]], node_id_map := [], restore_calls := [] } =
      { result := .error (.abort .UNAUTHENTICATED "Access denied!"),
        state := { client_public_keys := [[1]], node_id_map := [],
                   restore_calls := [] },
        sent_metadata := [], handler_called := false } :=
  unknown_public_key_rejected_before_mutation testEnv testServer testHandler
    [(PUBLIC_KEY_HEADER, [2])] (.createNode 30)
    { client_public_keys := [[1]], node_id_map := [], restore_calls := [] }
    (by decide)

/-- Claim C9: for every CreateNodeRequest from a trusted public key, the gate sends
response metadata containing the server's public key (base64-encoded under
the public-key header), on both the reconnect branch and the
fresh-registration branch. -/
theorem createnode_sends_server_public_key_metadata
    (env : Env) (server : ServerCtx) (handler : Request → Response)
    (metadata : List (String × Bytes)) (ping_interval : Nat) (s : StoreState)
    (h : env.b64decode (get_value_from_tuples PUBLIC_KEY_HEADER metadata) ∈
      get_client_public_keys s) :
    (generic_method_handler env server handler metadata
        (.createNode ping_interval) s).sent_metadata =
      [(PUBLIC_KEY_HEADER,
        env.b64encode (env.public_key_to_bytes server.server_public_key))] := by
  unfold generic_method_handler
  cases hb : get_node_id s
      (env.b64decode (get_value_from_tuples PUBLIC_KEY_HEADER metadata)) <;>
    simp [h, hb]

theorem createnode_sends_server_public_key_metadata_witness :
    (generic_method_handler testEnv testServer testHandler
        [(PUBLIC_KEY_HEADER, [1])] (.createNode 30)
        { client_public_keys := [[1]], node_id_map := [],
          restore_calls := [] }).sent_metadata =
      [(PUBLIC_KEY_HEADER,
        testEnv.b64encode (testEnv.public_key_to_bytes
          testServer.server_public_key))] :=
  createnode_sends_server_public_key_metadata testEnv testServer testHandler
    [(PUBLIC_KEY_HEADER, [1])] 30
    { client_public_keys := [[1]], node_id_map := [], restore_calls := [] }
    (by decide)

/-- Claim C2: for every CreateNodeRequest from a trusted public key that already
has a bound node id N, the gate calls restore_node with N and the request's
ping_interval, re-stores the key-to-N binding, and returns a synthesized
CreateNodeResponse with node_id = N and anonymous = false, without invoking
the underlying handler. -/
theorem reconnect_restores_existing_node_id
    (env : Env) (server : ServerCtx) (handler : Request → Response)
    (metadata : List (String × Bytes)) (ping_interval : Nat) (s : StoreState)
    (client_public_key_bytes : Bytes) (N : Nat)
    (hpk : env.b64decode (get_value_from_tuples PUBLIC_KEY_HEADER metadata) =
      client_public_key_bytes)
    (hknown : client_public_key_bytes ∈ get_client_public_keys s)
    (hbound : get_node_id s client_public_key_bytes = some N) :
    generic_method_handler env server handler metadata
        (.createNode ping_interval) s =
      { result := .ok (.createNodeResponse { node_id := N, anonymous := false }),
        state := store_node_id_client_public_key_pair
          (restore_node s N ping_interval) client_public_key_bytes N,
        sent_metadata :=
          [(PUBLIC_KEY_HEADER,
            env.b64encode (env.public_key_to_bytes server.server_public_key))],
        handler_called := false } := by
  unfold generic_method_handler
  simp [hpk, hknown, hbound]

theorem reconnect_restores_existing_node_id_witness :
    generic_method_handler testEnv testServer testHandler
        [(PUBLIC_KEY_HEADER, [1])] (.createNode 30)
        { client_public_keys := [[1]], node_id_map := [([1], 7)],
          restore_calls := [] } =
      { result := .ok (.createNodeResponse { node_id := 7, anonymous := false }),
        state := store_node_id_client_public_key_pair
          (restore_node
            { client_public_keys := [[1]], node_id_map := [([1], 7)],
              restore_calls := [] } 7 30) [1] 7,
        sent_metadata :=
          [(PUBLIC_KEY_HEADER,
            testEnv.b64encode (testEnv.public_key_to_bytes
              testServer.server_public_key))],
        handler_called := false } :=
  reconnect_restores_existing_node_id testEnv testServer testHandler
    [(PUBLIC_KEY_HEADER, [1])] 30
    { client_public_keys := [[1]], node_id_map := [([1], 7)], restore_calls := [] }
    [1] 7 (by decide) (by decide) (by decide)

/-- Claim C4: for every CreateNodeRequest from a trusted public key that has no
current node-id binding, the gate forwards the request to the underlying
handler, persists the binding from that key to the node_id in the handler's
response, and returns the handler's response unchanged. -/
theorem fresh_key_forwards_and_persists_binding
    (env : Env) (server : ServerCtx) (handler : Request → Response)
    (metadata : List (String × Bytes)) (ping_interval : Nat) (s : StoreState)
    (client_public_key_bytes : Bytes) (nd : Node)
    (hpk : env.b64decode (get_value_from_tuples PUBLIC_KEY_HEADER metadata) =
      client_public_key_bytes)
    (hknown : client_public_key_bytes ∈ get_client_public_keys s)
    (hunbound : get_node_id s client_public_key_bytes = none)
    (hhandler : handler (.createNode ping_interval) = .createNodeResponse nd) :
    generic_method_handler env server handler metadata
        (.createNode ping_interval) s =
      { result := .ok (.createNodeResponse nd),
        state := store_node_id_client_public_key_pair s
          client_public_key_bytes nd.node_id,
        sent_metadata :=
          [(PUBLIC_KEY_HEADER,
            env.b64encode (env.public_key_to_bytes server.server_public_key))],
        handler_called := true } := by
  unfold generic_method_handler
  simp [hpk, hknown, hunbound, hhandler, Response.node]

theorem fresh_key_forwards_and_persists_binding_witness :
    generic_method_handler testEnv testServer testHandler
        [(PUBLIC_KEY_HEADER, [1])] (.createNode 30)
        { client_public_keys := [[1]], node_id_map := [], restore_calls := [] } =
      { result := .ok (.createNodeResponse { node_id := 42, anonymous := false }),
        state := store_node_id_client_public_key_pair
          { client_public_keys := [[1]], node_id_map := [], restore_calls := [] }
          [1] 42,
        sent_metadata :=
          [(PUBLIC_KEY_HEADER,
            testEnv.b64encode (testEnv.public_key_to_bytes
              testServer.server_public_key))],
        handler_called := true } :=
  fresh_key_forwards_and_persists_binding testEnv testServer testHandler
    [(PUBLIC_KEY_HEADER, [1])] 30
    { client_public_keys := [[1]], node_id_map := [], restore_calls := [] }
    [1] { node_id := 42, anonymous := false }
    (by decide) (by decide) (by decide) (by decide)


/-- Claim C1: for every session-authenticated call (DeleteNode, PullTaskIns,
PushTaskRes) from a trusted public key whose expected node id resolves, the
gate rejects with an unauthenticated failure if and only if HMAC
verification fails AND the resolved request node id differs from the node id
bound to that public key; a valid HMAC alone, or a matching bound node id
alone, suffices for the call to be forwarded to the underlying handler. -/
theorem hmac_gate_rejects_iff_both_fail
    (env : Env) (server : ServerCtx) (handler : Request → Response)
    (metadata : List (String × Bytes)) (request : Request) (s : StoreState)
    (client_public_key_bytes : Bytes) (request_node_id : Nat) (verify : Bool)
    (hpk : env.b64decode (get_value_from_tuples PUBLIC_KEY_HEADER metadata) =
      client_public_key_bytes)
    (hknown : client_public_key_bytes ∈ get_client_public_keys s)
    (hsession : is_session_request request = true)
    (hrid : resolve_request_node_id request = some request_node_id)
    (hverify : env.verify_hmac
        (env.generate_shared_key server.server_private_key
          (env.bytes_to_public_key client_public_key_bytes))
        (env.serialize request)
        (env.b64decode (get_value_from_tuples AUTH_TOKEN_HEADER metadata)) =
      verify) :
    ((generic_method_handler env server handler metadata request s).result =
        .error (.abort .UNAUTHENTICATED "Access denied!") ↔
      (verify = false ∧
        ¬ get_node_id s client_public_key_bytes = some request_node_id)) ∧
    ((verify = true ∨
        get_node_id s client_public_key_bytes = some request_node_id) →
      generic_method_handler env server handler metadata request s =
        { result := .ok (handler request), state := s,
          sent_metadata := [], handler_called := true }) := by
  have hmain : generic_method_handler env server handler metadata request s =
      if ¬verify ∧ ¬(get_node_id s client_public_key_bytes = some request_node_id)
      then
        { result := .error (.abort .UNAUTHENTICATED "Access denied!"), state := s,
          sent_metadata := [], handler_called := false }
      else
        { result := .ok (handler request), state := s,
          sent_metadata := [], handler_called := true } := by
    cases request with
    | createNode p => simp [is_session_request] at hsession
    | other => simp [is_session_request] at hsession
    | deleteNode node =>
        simp only [resolve_request_node_id, Option.some.injEq] at hrid
        simp [generic_method_handler, session_branch, hpk, hknown,
          resolve_request_node_id, hrid, hverify]
    | pullTaskIns node =>
        simp only [resolve_request_node_id, Option.some.injEq] at hrid
        simp [generic_method_handler, session_branch, hpk, hknown,
          resolve_request_node_id, hrid, hverify]
    | pushTaskRes ts =>
        simp only [resolve_request_node_id] at hrid
        simp [generic_method_handler, session_branch, hpk, hknown, hverify,
          resolve_request_node_id, hrid]
  rw [hmain]
  by_cases hb : get_node_id s client_public_key_bytes = some request_node_id <;>
    cases verify <;> simp [hb]

theorem hmac_gate_rejects_iff_both_fail_witness :
    generic_method_handler testEnv testServer testHandler
        [(PUBLIC_KEY_HEADER, [1]), (AUTH_TOKEN_HEADER, [0])]
        (.pullTaskIns { node_id := 7, anonymous := false })
        { client_public_keys := [[1]], node_id_map := [([1], 7)],
          restore_calls := [] } =
      { result := .ok .pullTaskInsResponse,
        state := { client_public_keys := [[1]], node_id_map := [([1], 7)],
                   restore_calls := [] },
        sent_metadata := [], handler_called := true } := by
  exact (hmac_gate_rejects_iff_both_fail testEnv testServer testHandler
    [(PUBLIC_KEY_HEADER, [1]), (AUTH_TOKEN_HEADER, [0])]
    (.pullTaskIns { node_id := 7, anonymous := false })
    { client_public_keys := [[1]], node_id_map := [([1], 7)],
      restore_calls := [] }
    [1] 7 false (by decide) (by decide) (by decide) (by decide) (by decide)).2
    (Or.inr (by decide))

/-- Claim C8: every authentication rejection emitted by the gate — unknown
public key, failed HMAC combined with id mismatch, and unrecognized request
kind — carries the identical status code (UNAUTHENTICATED) and the identical
message ("Access denied!"), so a caller cannot distinguish the cause. -/
theorem rejections_carry_uniform_status_and_message
    (env : Env) (server : ServerCtx) (handler : Request → Response)
    (metadata : List (String × Bytes)) (request : Request) (s : StoreState)
    (c : StatusCode) (m : String)
    (h : (generic_method_handler env server handler metadata request s).result =
      .error (.abort c m)) :
    c = .UNAUTHENTICATED ∧ m = "Access denied!" := by
  unfold generic_method_handler at h
  by_cases hk : env.b64decode (get_value_from_tuples PUBLIC_KEY_HEADER metadata) ∈
      get_client_public_keys s
  · cases request with
    | createNode p =>
        cases hb : get_node_id s
            (env.b64decode (get_value_from_tuples PUBLIC_KEY_HEADER metadata)) <;>
          simp [hk, hb] at h
    | other =>
        simp [hk] at h
        exact ⟨by cases c; rfl, h.symm⟩
    | deleteNode node =>
        simp only [hk, not_true, if_neg, ite_false, not_false_iff] at h
        unfold session_branch at h
        simp only [resolve_request_node_id] at h
        split at h
        · simp at h
          exact ⟨by cases c; rfl, h.symm⟩
        · simp at h
    | pullTaskIns node =>
        simp only [hk, not_true, if_neg, ite_false, not_false_iff] at h
        unfold session_branch at h
        simp only [resolve_request_node_id] at h
        split at h
        · simp at h
          exact ⟨by cases c; rfl, h.symm⟩
        · simp at h
    | pushTaskRes ts =>
        simp only [hk, not_true, if_neg, ite_false, not_false_iff] at h
        unfold session_branch at h
        simp only [resolve_request_node_id] at h
        split at h
        · simp at h
        · split at h
          · simp at h
            exact ⟨by cases c; rfl, h.symm⟩
          · simp at h
  · simp [hk] at h
    exact ⟨by cases c; rfl, h.symm⟩

theorem rejections_carry_uniform_status_and_message_witness :
    StatusCode.UNAUTHENTICATED = StatusCode.UNAUTHENTICATED ∧
    "Access denied!" = "Access denied!" :=
  rejections_carry_uniform_status_and_message testEnv testServer testHandler
    [] .other
    { client_public_keys := [], node_id_map := [], restore_calls := [] }
    .UNAUTHENTICATED "Access denied!" (by decide)

/-- Claim C10: for every PushTaskResRequest from a trusted public key whose
task_res_list is empty, the node-id resolution accesses the first element of
task_res_list without an emptiness guard, so the call fails with an index
error instead of a clean unauthenticated rejection; the clean rejection path
is reachable only when task_res_list is non-empty. -/
theorem empty_push_task_res_index_error
    (env : Env) (server : ServerCtx) (handler : Request → Response)
    (metadata : List (String × Bytes)) (task_res_list : List TaskRes)
    (s : StoreState)
    (hknown : env.b64decode (get_value_from_tuples PUBLIC_KEY_HEADER metadata) ∈
      get_client_public_keys s) :
    (task_res_list = [] →
      (generic_method_handler env server handler metadata
          (.pushTaskRes task_res_list) s).result = .error .indexError) ∧
    (∀ (c : StatusCode) (m : String),
      (generic_method_handler env server handler metadata
          (.pushTaskRes task_res_list) s).result = .error (.abort c m) →
      task_res_list ≠ []) := by
  constructor
  · intro hts
    subst hts
    simp [generic_method_handler, session_branch, hknown,
      resolve_request_node_id]
  · intro c m h hts
    subst hts
    simp [generic_method_handler, session_branch, hknown,
      resolve_request_node_id] at h

theorem empty_push_task_res_index_error_witness :
    (generic_method_handler testEnv testServer testHandler
        [(PUBLIC_KEY_HEADER, [1])] (.pushTaskRes [])
        { client_public_keys := [[1]], node_id_map := [],
          restore_calls := [] }).result = .error .indexError :=
  (empty_push_task_res_index_error testEnv testServer testHandler
    [(PUBLIC_KEY_HEADER, [1])] []
    { client_public_keys := [[1]], node_id_map := [], restore_calls := [] }
    (by decide)).1 rfl


/-- `run_dead` unregisters along the first component and erases along the
second, independently. -/
theorem run_dead_eq (dead : List Nat) : ∀ (cm : CMState) (reg : List Nat),
    run_dead cm reg dead =
      (dead.foldl ClientManager.unregister cm,
       dead.foldl (fun r n => r.erase n) reg) := by
  induction dead with
  | nil => intro cm reg; rfl
  | cons n rest ih => intro cm reg; simp only [run_dead, List.foldl]; exact ih _ _

/-- Erasing each element of `dead` from a duplicate-free list keeps exactly
the members outside `dead`. -/
theorem mem_foldl_erase (dead : List Nat) : ∀ (reg : List Nat), reg.Nodup →
    ∀ x, x ∈ dead.foldl (fun r n => r.erase n) reg ↔ x ∈ reg ∧ x ∉ dead := by
  induction dead with
  | nil => intro reg _ x; simp
  | cons n rest ih =>
      intro reg hnd x
      simp only [List.foldl]
      rw [ih (reg.erase n) (hnd.erase n) x, List.Nodup.mem_erase_iff hnd]
      simp only [List.mem_cons]
      tauto

/-- Erasing only ever removes members. -/
theorem mem_foldl_erase_subset (dead : List Nat) : ∀ (reg : List Nat) (x : Nat),
    x ∈ dead.foldl (fun r n => r.erase n) reg → x ∈ reg := by
  induction dead with
  | nil => intro reg x h; exact h
  | cons n rest ih => intro reg x h; exact List.mem_of_mem_erase (ih _ _ h)

/-- When every registration succeeds, the cache after `run_new` is the input
cache with the new ids appended. -/
theorem run_new_ok_cache (ns : List Nat) :
    ∀ (cm : CMState) (reg : List Nat) (cm' : CMState) (reg' : List Nat),
    run_new cm reg ns = .ok (cm', reg') → reg' = reg ++ ns := by
  induction ns with
  | nil =>
      intro cm reg cm' reg' h
      simp only [run_new, Except.ok.injEq, Prod.mk.injEq] at h
      simp [← h.2]
  | cons n rest ih =>
      intro cm reg cm' reg' h
      simp only [run_new] at h
      cases hr : ClientManager.register cm n with
      | mk ok cm2 =>
          rw [hr] at h
          cases ok
          · cases h
          · have := ih cm2 (reg ++ [n]) cm' reg' h
            simp [this]

/-- A successful `run_new` over a list prefix lets the run over the full
list continue from the prefix's final states. -/
theorem run_new_append (pre : List Nat) :
    ∀ (cm : CMState) (reg : List Nat) (cm1 : CMState) (reg1 ns : List Nat),
    run_new cm reg pre = .ok (cm1, reg1) →
    run_new cm reg (pre ++ ns) = run_new cm1 reg1 ns := by
  induction pre with
  | nil =>
      intro cm reg cm1 reg1 ns h
      simp only [run_new, Except.ok.injEq, Prod.mk.injEq] at h
      rw [List.nil_append, h.1, h.2]
  | cons k rest ih =>
      intro cm reg cm1 reg1 ns h
      simp only [run_new, List.cons_append] at h ⊢
      cases hr : ClientManager.register cm k with
      | mk ok cm2 =>
          rw [hr] at h
          cases ok
          · cases h
          · exact ih cm2 (reg ++ [k]) cm1 reg1 ns h

/-- Claim C5: each cycle computes dead = known minus live and new = live
minus known, unregisters dead ids and drops them from the cache, then
registers the new ids; whenever every registration succeeds the resulting
cache holds exactly the polled live set.  For the source sequence
{1,2} then {2,3} then {3}, after three cycles the registered set is {3},
with node 1 unregistered after cycle 2 and node 2 unregistered after
cycle 3. -/
theorem reconciliation_cycle_syncs_cache :
    (∀ (cm : CMState) (registered_nodes all_node_ids : List Nat)
       (cm' : CMState) (registered' : List Nat),
      registered_nodes.Nodup →
      update_cycle cm registered_nodes all_node_ids = .ok (cm', registered') →
      ∀ x, x ∈ registered' ↔ x ∈ all_node_ids) ∧
    update_client_manager ⟨[]⟩ [] [(false, [1, 2])] = .ok (⟨[2, 1]⟩, [1, 2]) ∧
    update_client_manager ⟨[]⟩ [] [(false, [1, 2]), (false, [2, 3])] =
      .ok (⟨[3, 2]⟩, [2, 3]) ∧
    (1 : Nat) ∉ ([3, 2] : List Nat) ∧
    update_client_manager ⟨[]⟩ []
        [(false, [1, 2]), (false, [2, 3]), (false, [3])] = .ok (⟨[3]⟩, [3]) ∧
    (2 : Nat) ∉ ([3] : List Nat) ∧ (1 : Nat) ∉ ([3] : List Nat) := by
  refine ⟨?_, by decide, by decide, by decide, by decide, by decide, by decide⟩
  intro cm reg live cm' reg' hnd hok x
  simp only [update_cycle, run_dead_eq] at hok
  have hreg' := run_new_ok_cache _ _ _ _ _ hok
  subst hreg'
  rw [List.mem_append, mem_foldl_erase _ _ hnd]
  simp only [dead_nodes_of, new_nodes_of, List.mem_filter, List.mem_dedup,
    decide_eq_true_eq]
  constructor
  · rintro (⟨hr, hd⟩ | ⟨hl, _⟩)
    · by_contra hlive
      exact hd ⟨hr, hlive⟩
    · exact hl
  · intro hlive
    by_cases hr : x ∈ reg
    · exact Or.inl ⟨hr, fun hd => hd.2 hlive⟩
    · exact Or.inr ⟨hlive, hr⟩

theorem reconciliation_cycle_syncs_cache_witness :
    List.Nodup ([] : List Nat) ∧
    update_cycle ⟨[]⟩ [] [5, 6] = .ok (⟨[6, 5]⟩, [5, 6]) ∧
    ((5 : Nat) ∈ ([5, 6] : List Nat) ↔ (5 : Nat) ∈ ([5, 6] : List Nat)) :=
  ⟨by decide, by decide,
    reconciliation_cycle_syncs_cache.1 ⟨[]⟩ [] [5, 6] ⟨[6, 5]⟩ [5, 6]
      (by decide) (by decide) 5⟩

/-- Claim C6: if `client_manager.register` returns false for a newly seen
node id, the loop raises `RuntimeError("Could not register node.")`, which
terminates the cycle and the whole loop rather than being swallowed, and the
duplicate id is absent from the local cache carried by the error. -/
theorem duplicate_registration_fatal :
    (∀ (cm cm1 : CMState) (registered_nodes reg1 pre post live : List Nat)
       (n : Nat),
      new_nodes_of registered_nodes live = pre ++ n :: post →
      run_new (run_dead cm registered_nodes
          (dead_nodes_of registered_nodes live)).1
        (run_dead cm registered_nodes
          (dead_nodes_of registered_nodes live)).2 pre = .ok (cm1, reg1) →
      (ClientManager.register cm1 n).1 = false →
      update_cycle cm registered_nodes live =
        .error (.couldNotRegister cm1 reg1) ∧ n ∉ reg1) ∧
    (∀ (cm : CMState) (registered_nodes live : List Nat)
       (rest : List (Bool × List Nat)) (e : LoopError),
      update_cycle cm registered_nodes live = .error e →
      update_client_manager cm registered_nodes ((false, live) :: rest) =
        .error e) := by
  constructor
  · intro cm cm1 reg reg1 pre post live n hsplit hpre hfail
    have hnodup : (pre ++ n :: post).Nodup := by
      rw [← hsplit]
      exact (List.nodup_dedup _).filter _
    have hnpre : n ∉ pre := by
      rcases List.nodup_append.mp hnodup with ⟨_, _, hdisj⟩
      intro hmem
      exact hdisj hmem (List.mem_cons_self n post)
    have hnreg : n ∉ reg := by
      have hmem : n ∈ new_nodes_of reg live := by
        rw [hsplit]
        exact List.mem_append_right _ (List.mem_cons_self n post)
      simp only [new_nodes_of, List.mem_filter, decide_eq_true_eq] at hmem
      exact hmem.2
    constructor
    · simp only [update_cycle, hsplit]
      rw [run_new_append _ _ _ _ _ _ hpre]
      simp only [run_new]
      cases hr : ClientManager.register cm1 n with
      | mk ok cm2 =>
          rw [hr] at hfail
          cases ok
          · rfl
          · cases hfail
    · have := run_new_ok_cache _ _ _ _ _ hpre
      subst this
      rw [List.mem_append]
      rintro (hmem | hmem)
      · rw [run_dead_eq] at hmem
        exact hnreg (mem_foldl_erase_subset _ _ _ hmem)
      · exact hnpre hmem
  · intro cm reg live rest e h
    simp [update_client_manager, h]

theorem duplicate_registration_fatal_witness :
    update_cycle ⟨[7]⟩ [] [7] = .error (.couldNotRegister ⟨[7]⟩ []) ∧
    (7 : Nat) ∉ ([] : List Nat) :=
  duplicate_registration_fatal.1 ⟨[7]⟩ ⟨[7]⟩ [] [] [] [] [7] 7
    (by decide) (by decide) (by decide)

/-- Claim C7: the loop consults the shared exit flag once, at the top of
each cycle; a cycle whose top-of-cycle observation is `true` runs no body
at all, everything scheduled after a `true` observation is never examined,
and `start_driver` sets the flag before joining on loop termination. -/
theorem exit_flag_stops_loop :
    (∀ (pre : List (Bool × List Nat)) (live : List Nat)
       (rest : List (Bool × List Nat)) (cm : CMState) (reg : List Nat),
      update_client_manager cm reg (pre ++ (true, live) :: rest) =
        update_client_manager cm reg pre) ∧
    (∀ (live : List Nat) (rest : List (Bool × List Nat)) (cm : CMState)
       (reg : List Nat),
      update_client_manager cm reg ((true, live) :: rest) = .ok (cm, reg)) ∧
    start_driver_stop_sequence = [.set_exit_flag, .join_thread] := by
  refine ⟨?_, fun _ _ _ _ => rfl, rfl⟩
  intro pre
  induction pre with
  | nil => intro live rest cm reg; rfl
  | cons hd tl ih =>
      intro live rest cm reg
      cases hd with
      | mk f l =>
          cases f
          · simp only [List.cons_append, update_client_manager]
            cases update_cycle cm reg l with
            | ok p => exact ih live rest p.1 p.2
            | error e => rfl
          · rfl

end Flwr
